import Mathlib

/-!
Verification of the signed-request pipeline and order/TWAP execution engine
of `basic_bot.py` (a Binance USDT-M futures testnet trading bot), as a
shallow embedding in Lean 4.

Modelling conventions:
* Bytes are `Nat`s below 256; byte strings are `List Nat`.
* Python `float` quantities and prices are modelled as `ℚ`; `str()` of a
  float is modelled by `floatStr`, which renders exactly-representable
  terminating decimals the way Python's shortest-repr does for the decimal
  literals used by this program (e.g. `0.001`, `62000.0`).
* The HTTP transport (`requests.Session`) is an explicit environment
  `Env`: a function from the history of calls made so far and the current
  call to a scripted outcome.  Every transport invocation is recorded in a
  trace (`List NetCall`), so "performs no network call" is the statement
  that the trace is unchanged.
* Python exceptions become `Except BotErr`; `ValueError` (validation and
  configuration errors), `BinanceAPIError` and `requests.RequestException`
  are the three constructors of `BotErr`.
* Response bodies are association lists of JSON scalars (`JObj`); the
  program only ever reads the scalar fields `serverTime`, `code`, `msg`.
-/

namespace Binance

/-! ## Bytes, hex, UTF-8 -/

/-- Lower-case hex digit for a nibble. -/
def hexDigitL (n : Nat) : Char :=
  if n < 10 then Char.ofNat (48 + n) else Char.ofNat (87 + n)

/-- Upper-case hex digit for a nibble (used by percent-encoding). -/
def hexDigitU (n : Nat) : Char :=
  if n < 10 then Char.ofNat (48 + n) else Char.ofNat (55 + n)

/-- Lower-case hex rendering of a byte string (Python `hexdigest()`). -/
def hexLower (bs : List Nat) : String :=
  String.join (bs.map fun b => String.mk [hexDigitL (b / 16), hexDigitL (b % 16)])

/-- UTF-8 encoding of one character. -/
def charUtf8 (c : Char) : List Nat :=
  let n := c.toNat
  if n < 128 then [n]
  else if n < 2048 then [192 + n / 64, 128 + n % 64]
  else if n < 65536 then [224 + n / 4096, 128 + (n / 64) % 64, 128 + n % 64]
  else [240 + n / 262144, 128 + (n / 4096) % 64, 128 + (n / 64) % 64, 128 + n % 64]

/-- Python `str.upper()`: upper-case each character (ASCII data in this
program; kernel-reducible, unlike `String.toUpper`). -/
def pyUpper (s : String) : String := String.mk (s.data.map Char.toUpper)

/-- UTF-8 encoding of a string (Python `s.encode("utf-8")`). -/
def utf8Bytes (s : String) : List Nat :=
  (s.data.map charUtf8).flatten

/-! ## SHA-256 and HMAC-SHA256 (executable, over byte lists) -/

/-- Truncation to a 32-bit word. -/
def w32 (n : Nat) : Nat := n % 4294967296

/-- 32-bit right rotation. -/
def rotr (x n : Nat) : Nat := w32 ((x >>> n) ||| (x <<< (32 - n)))

/-- The 64 SHA-256 round constants (FIPS 180-4, written in decimal; the
test vectors below pin them). -/
def shaK : List Nat :=
  [1116352408, 1899447441, 3049323471, 3921009573, 961987163, 1508970993,
   2453635748, 2870763221, 3624381080, 310598401, 607225278, 1426881987,
   1925078388, 2162078206, 2614888103, 3248222580, 3835390401, 4022224774,
   264347078, 604807628, 770255983, 1249150122, 1555081692, 1996064986,
   2554220882, 2821834349, 2952996808, 3210313671, 3336571891, 3584528711,
   113926993, 338241895, 666307205, 773529912, 1294757372, 1396182291,
   1695183700, 1986661051, 2177026350, 2456956037, 2730485921, 2820302411,
   3259730800, 3345764771, 3516065817, 3600352804, 4094571909, 275423344,
   430227734, 506948616, 659060556, 883997877, 958139571, 1322822218,
   1537002063, 1747873779, 1955562222, 2024104815, 2227730452, 2361852424,
   2428436474, 2756734187, 3204031479, 3329325298]

/-- SHA-256 working state: the eight 32-bit variables. -/
structure Hash8 where
  a : Nat
  b : Nat
  c : Nat
  d : Nat
  e : Nat
  f : Nat
  g : Nat
  h : Nat
deriving DecidableEq

/-- Initial SHA-256 hash value (FIPS 180-4, in decimal). -/
def shaH0 : Hash8 :=
  ⟨1779033703, 3144134277, 1013904242, 2773480762,
   1359893119, 2600822924, 528734635, 1541459225⟩

/-- Big-endian 4-byte chunks of a 64-byte block into sixteen 32-bit words. -/
def toWordsAux : Nat → List Nat → List Nat
  | 0, _ => []
  | fuel + 1, b0 :: b1 :: b2 :: b3 :: rest =>
      (((b0 * 256 + b1) * 256 + b2) * 256 + b3) :: toWordsAux fuel rest
  | _ + 1, _ => []

/-- The sixteen initial message-schedule words of a block. -/
def toWords (block : List Nat) : List Nat := toWordsAux 16 block

/-- One message-schedule extension step: append word `length ws`. -/
def schedStep (ws : List Nat) : List Nat :=
  let i := ws.length
  let x15 := ws.getD (i - 15) 0
  let x2 := ws.getD (i - 2) 0
  let s0 := (rotr x15 7) ^^^ (rotr x15 18) ^^^ (x15 >>> 3)
  let s1 := (rotr x2 17) ^^^ (rotr x2 19) ^^^ (x2 >>> 10)
  ws ++ [w32 (ws.getD (i - 16) 0 + s0 + ws.getD (i - 7) 0 + s1)]

/-- Full 64-word message schedule of one block. -/
def sched (block : List Nat) : List Nat :=
  (List.range 48).foldl (fun acc _ => schedStep acc) (toWords block)

/-- Bitwise complement within 32 bits. -/
def not32 (x : Nat) : Nat := 4294967295 - x

/-- One SHA-256 compression round on the working state. -/
def compStep (st : Hash8) (kw : Nat × Nat) : Hash8 :=
  let s1 := (rotr st.e 6) ^^^ (rotr st.e 11) ^^^ (rotr st.e 25)
  let ch := (st.e &&& st.f) ^^^ ((not32 st.e) &&& st.g)
  let t1 := w32 (st.h + s1 + ch + kw.1 + kw.2)
  let s0 := (rotr st.a 2) ^^^ (rotr st.a 13) ^^^ (rotr st.a 22)
  let maj := (st.a &&& st.b) ^^^ (st.a &&& st.c) ^^^ (st.b &&& st.c)
  let t2 := w32 (s0 + maj)
  ⟨w32 (t1 + t2), st.a, st.b, st.c, w32 (st.d + t1), st.e, st.f, st.g⟩

/-- Process one 64-byte block, updating the hash value. -/
def processBlock (hv : Hash8) (block : List Nat) : Hash8 :=
  let st := ((sched block).zip shaK).foldl compStep hv
  ⟨w32 (hv.a + st.a), w32 (hv.b + st.b), w32 (hv.c + st.c), w32 (hv.d + st.d),
   w32 (hv.e + st.e), w32 (hv.f + st.f), w32 (hv.g + st.g), w32 (hv.h + st.h)⟩

/-- Big-endian 8-byte rendering of a 64-bit length. -/
def be64 (n : Nat) : List Nat :=
  [n / 72057594037927936 % 256, n / 281474976710656 % 256, n / 1099511627776 % 256,
   n / 4294967296 % 256, n / 16777216 % 256, n / 65536 % 256, n / 256 % 256, n % 256]

/-- Big-endian 4-byte rendering of a 32-bit word. -/
def be32 (n : Nat) : List Nat :=
  [n / 16777216 % 256, n / 65536 % 256, n / 256 % 256, n % 256]

/-- SHA-256 padding: `0x80`, zeros to 56 mod 64, then the 64-bit bit length. -/
def padMsg (msg : List Nat) : List Nat :=
  let L := msg.length
  let k := (L + 1) % 64
  let zeros := if k ≤ 56 then 56 - k else 120 - k
  msg ++ [128] ++ List.replicate zeros 0 ++ be64 (8 * L)

/-- Split a byte list into 64-byte chunks (fuelled, hence total). -/
def chunksAux : Nat → List Nat → List (List Nat)
  | 0, _ => []
  | _ + 1, [] => []
  | fuel + 1, l => l.take 64 :: chunksAux fuel (l.drop 64)

/-- The 64-byte blocks of a padded message. -/
def chunks64 (l : List Nat) : List (List Nat) := chunksAux l.length l

/-- SHA-256 of a byte string, as its 32-byte digest. -/
def sha256 (msg : List Nat) : List Nat :=
  let hv := (chunks64 (padMsg msg)).foldl processBlock shaH0
  be32 hv.a ++ be32 hv.b ++ be32 hv.c ++ be32 hv.d ++ be32 hv.e ++ be32 hv.f ++ be32 hv.g ++ be32 hv.h

/-- HMAC-SHA256 (RFC 2104) of a message under a key, both byte strings. -/
def hmacSha256 (key msg : List Nat) : List Nat :=
  let k0 := if 64 < key.length then sha256 key else key
  let kPad := k0 ++ List.replicate (64 - k0.length) 0
  let ipad := kPad.map (fun b => b ^^^ 0x36)
  let opad := kPad.map (fun b => b ^^^ 0x5C)
  sha256 (opad ++ sha256 (ipad ++ msg))

set_option maxRecDepth 10000

/-- Anchor: SHA-256 of the empty string matches the published test vector. -/
theorem sha256_empty_vector :
    hexLower (sha256 []) =
      "e3b0c44298fc1c149afbf4c8996fb92427ae41e4649b934ca495991b7852b855" := by
  decide

/-- Anchor: HMAC-SHA256 matches RFC 4231 test case 2
(key `"Jefe"`, data `"what do ya want for nothing?"`). -/
theorem hmacSha256_rfc4231_vector :
    hexLower (hmacSha256 (utf8Bytes "Jefe") (utf8Bytes "what do ya want for nothing?")) =
      "5bdcc146bf60754e6a042426089575c75a003f089d2739839dec58b964ec3843" := by
  decide

/-! ## Python-value rendering and URL encoding

`basic_bot.py` serializes its parameter dict with
`urllib.parse.urlencode(params, doseq=True)`: each key and each `str(value)`
is percent-quoted with `quote_plus` (unreserved characters kept, space to
`+`, every other UTF-8 byte to `%XX` upper-case hex), pairs joined as
`k=v` with `&`, in dict insertion order. -/

/-- A parameter value as stored in the Python params dict: a `str`, an
`int`, or a `float` (modelled as `ℚ`). -/
inductive PVal where
  | pstr (s : String)
  | pint (n : Int)
  | prat (q : ℚ)
deriving DecidableEq

/-- Least `k ≤ 79` with `d ∣ 10 ^ k`, if any (every positive denominator of
a dyadic-or-decimal float value has one far below this bound). -/
def pow10Exp (d : Nat) : Option Nat :=
  (List.range 80).find? (fun k => 10 ^ k % d == 0)

/-- Python `str()` of the float with exact value `q`, for values whose
shortest repr is the plain decimal literal: integers render with a trailing
`.0`, terminating fractions with their minimal decimal digits.  (Values
with no terminating decimal expansion are not exact float values and do
not arise; they get a fraction rendering here.) -/
def floatStr (q : ℚ) : String :=
  let sgn := if q < 0 then "-" else ""
  let n := q.num.natAbs
  let d := q.den
  if d = 1 then sgn ++ toString n ++ ".0"
  else
    match pow10Exp d with
    | some k =>
        let scaled := n * 10 ^ k / d
        let ip := scaled / 10 ^ k
        let fp := scaled % 10 ^ k
        let fpStr := toString fp
        let fpPad := String.mk (List.replicate (k - fpStr.length) '0') ++ fpStr
        sgn ++ toString ip ++ "." ++ fpPad
    | none => sgn ++ toString n ++ "/" ++ toString d

/-- Python `str()` of a parameter value. -/
def pvalStr : PVal → String
  | .pstr s => s
  | .pint n => toString n
  | .prat q => floatStr q

/-- Characters `quote_plus` leaves unquoted: ASCII alphanumerics and
`_ . - ~`. -/
def safeChar (c : Char) : Bool :=
  c.isAlphanum || c = '_' || c = '.' || c = '-' || c = '~'

/-- Percent-escape of one byte, upper-case hex. -/
def pctByte (b : Nat) : String :=
  String.mk ['%', hexDigitU (b / 16), hexDigitU (b % 16)]

/-- Python `urllib.parse.quote_plus`. -/
def quotePlus (s : String) : String :=
  String.join (s.data.map fun c =>
    if safeChar c then String.mk [c]
    else if c = ' ' then "+"
    else String.join ((charUtf8 c).map pctByte))

/-- An ordered parameter set: the Python params dict, insertion order
preserved. -/
abbrev Params := List (String × PVal)

/-- Python dict assignment `p[k] = v`: overwrite in place if the key is
present, else append at the end. -/
def dictSet (p : Params) (k : String) (v : PVal) : Params :=
  if p.any (fun kv => kv.1 = k) then
    p.map (fun kv => if kv.1 = k then (k, v) else kv)
  else p ++ [(k, v)]

/-- Python `urllib.parse.urlencode(params, doseq=True)` on scalar values. -/
def urlencode (ps : Params) : String :=
  String.intercalate "&" (ps.map fun kv => quotePlus kv.1 ++ "=" ++ quotePlus (pvalStr kv.2))

/-! ## JSON scalar bodies -/

/-- A JSON scalar as found in the response bodies this program reads. -/
inductive JVal where
  | jnum (n : Int)
  | jstr (s : String)
deriving DecidableEq

/-- A parsed JSON object body: ordered field list. -/
abbrev JObj := List (String × JVal)

/-- Python `j.get(k)`. -/
def jget (j : JObj) (k : String) : Option JVal :=
  (j.find? (fun kv => kv.1 = k)).map (fun kv => kv.2)

/-- Python truthiness of an optional JSON scalar (`None`, `0` and `""` are
falsy). -/
def jtruthy : Option JVal → Bool
  | none => false
  | some (.jnum n) => n != 0
  | some (.jstr s) => s != ""

/-- Python `str()` of a JSON scalar (as interpolated into an f-string). -/
def jvalStr : JVal → String
  | .jnum n => toString n
  | .jstr s => s

/-- `j.get("msg") or resp.text`: the `msg` field when truthy, else the raw
body text. -/
def msgOrText (j : JObj) (text : String) : String :=
  match jget j "msg" with
  | some v => if jtruthy (some v) then jvalStr v else text
  | none => text

/-- Python `repr` of a JSON scalar (string fields quoted; escaping not
modelled, the bodies used contain no quotes). -/
def jvalRepr : JVal → String
  | .jnum n => toString n
  | .jstr s => "'" ++ s ++ "'"

/-- Python `repr` of a parsed dict body, as interpolated by
`f"Binance error: \x7bj\x7d"`. -/
def jobjRepr (j : JObj) : String :=
  "\x7b" ++ String.intercalate ", " (j.map fun kv => "'" ++ kv.1 ++ "': " ++ jvalRepr kv.2) ++ "\x7d"

/-- `j.get("code") and j.get("code") < 0`: a truthy `code` field that is a
negative number.  (The program's bodies carry numeric codes; a truthy
non-numeric `code` would raise `TypeError` in Python and is outside the
modelled domain.) -/
def negCode (j : JObj) : Bool :=
  match jget j "code" with
  | some (.jnum c) => c != 0 && c < 0
  | _ => false

/-! ## The transport boundary -/

/-- One HTTP call handed to the transport: method (upper-cased at dispatch),
full URL, and query parameters. -/
structure NetCall where
  method : String
  url : String
  params : Params
deriving DecidableEq

/-- An HTTP response as the program observes it: status code, raw body
text, and the parsed JSON body (`json` is the parse of `text`; it is read
only when `text` is non-empty). -/
structure HttpResp where
  status : Nat
  text : String
  json : JObj
deriving DecidableEq

/-- Outcome of one transport invocation: a response, or a network-layer
failure (`requests.RequestException`). -/
inductive TranResult where
  | resp (r : HttpResp)
  | netErr (m : String)
deriving DecidableEq

/-- A scripted transport environment: the outcome may depend on the history
of calls made so far (so single-call failures can be injected at a chosen
position). -/
def Env : Type := List NetCall → NetCall → TranResult

/-- Perform one transport call: consult the environment and record the call
in the trace. -/
def doCall (env : Env) (tr : List NetCall) (c : NetCall) : TranResult × List NetCall :=
  (env tr c, tr ++ [c])

/-- The exceptions `basic_bot.py` raises or propagates:
`ValueError` (validation and configuration), `BinanceAPIError`, and
`requests.RequestException`. -/
inductive BotErr where
  | valueError (m : String)
  | apiError (m : String)
  | netError (m : String)
deriving DecidableEq

/-- Python `str(e)` for a single-argument exception. -/
def errStr : BotErr → String
  | .valueError m => m
  | .apiError m => m
  | .netError m => m

/-- A successful return of `BasicBot.request`: the dry-run echo dict
`\x7b"dry_run": True, "method": m, "url": u, "params": p\x7d`, or the parsed
response payload. -/
inductive ReqResult where
  | dryEcho (method : String) (url : String) (params : Params)
  | payload (j : JObj)
deriving DecidableEq

/-! ## The bot -/

/-- `RECV_WINDOW = 15000` (module constant). -/
def RECV_WINDOW : Int := 15000

/-- `ORDER_PATH = "/fapi/v1/order"` (module constant). -/
def ORDER_PATH : String := "/fapi/v1/order"

/-- The client state built by `BasicBot.__init__`: credentials (secret
already UTF-8 encoded), the base URL (trailing slashes stripped by the
constructor), and the dry-run flag. -/
structure BasicBot where
  api_key : String
  api_secret : List Nat
  base_url : String
  dry_run : Bool

/-- The time-sync call `GET \x7bbase_url\x7d/fapi/v1/time` (no parameters). -/
def timeCall (bot : BasicBot) : NetCall :=
  ⟨"GET", bot.base_url ++ "/fapi/v1/time", []⟩

/-- The usable `serverTime` of a parsed body: present and numeric.  (A
missing key raises `KeyError` in `data["serverTime"]`; a non-numeric value
raises `TypeError` at `server_time + 500`; both land in the same
catch-all of `_timestamped_params`, so they are collapsed here.) -/
def serverTimeNum (j : JObj) : Option Int :=
  match jget j "serverTime" with
  | some (.jnum t) => some t
  | _ => none

/-- `BasicBot.get_server_time`: GET `\x7bbase_url\x7d/fapi/v1/time`, parse the
body, return its `serverTime` field.  Transport failure, a malformed body
or a missing/non-numeric `serverTime` raise (modelled as `.error`); the
call is recorded in the trace in every case. -/
def BasicBot.get_server_time (bot : BasicBot) (env : Env) (tr : List NetCall) :
    Except BotErr Int × List NetCall :=
  match doCall env tr (timeCall bot) with
  | (.netErr m, tr1) => (.error (.netError m), tr1)
  | (.resp r, tr1) =>
      match serverTimeNum r.json with
      | some t => (.ok t, tr1)
      | none => (.error (.valueError "serverTime"), tr1)

/-- `BasicBot._sign`: URL-encode the params in insertion order, then
HMAC-SHA256 under the secret, lower-case hexdigest. -/
def BasicBot._sign (bot : BasicBot) (params : Params) : String :=
  let qs := urlencode params
  hexLower (hmacSha256 bot.api_secret (utf8Bytes qs))

/-- `BasicBot._timestamped_params`: copy `extra`; try the server time and
stamp `timestamp = serverTime + 500`; on any failure fall back to the local
wall clock `now` (epoch ms); then attach `recvWindow = RECV_WINDOW`.  Never
raises. -/
def BasicBot._timestamped_params (bot : BasicBot) (env : Env) (now : Int)
    (extra : Params) (tr : List NetCall) : Params × List NetCall :=
  let (res, tr1) := bot.get_server_time env tr
  let ts : Int := match res with
    | .ok t => t + 500
    | .error _ => now
  (dictSet (dictSet extra "timestamp" (.pint ts)) "recvWindow" (.pint RECV_WINDOW), tr1)

/-- `requests.Response.ok`: true unless the status is 4xx or 5xx. -/
def respOk (status : Nat) : Bool := !(400 ≤ status && status < 600)

/-- Response classification of `BasicBot.request` (its post-I/O tail):
parse the body if the text is non-empty, else take the empty dict; raise
`BinanceAPIError` when `resp.ok` is false, carrying `msg` (or the raw text
when `msg` is absent or falsy); raise `BinanceAPIError` when the body
carries a truthy negative `code`; otherwise return the parsed body. -/
def classify (r : HttpResp) : Except BotErr ReqResult :=
  let j : JObj := if r.text = "" then [] else r.json
  if !respOk r.status then
    .error (.apiError ("HTTP " ++ toString r.status ++ " error: " ++ msgOrText j r.text))
  else if negCode j then
    .error (.apiError ("Binance error: " ++ jobjRepr j))
  else
    .ok (.payload j)

/-- The methods `BasicBot.request` dispatches. -/
def methodAllowed (m : String) : Bool :=
  m == "GET" || m == "POST" || m == "DELETE"

/-- The signing stage of `BasicBot.request` (its `if signed:` block): when
`signed`, stamp the params and append the signature computed over the
stamped set as the final field; otherwise pass the params unchanged. -/
def BasicBot.envelope (bot : BasicBot) (env : Env) (now : Int)
    (params : Params) (signed : Bool) (tr : List NetCall) : Params × List NetCall :=
  if signed then
    let (fp, tr1) := bot._timestamped_params env now params tr
    (dictSet fp "signature" (.pstr (bot._sign fp)), tr1)
  else (params, tr)

/-- `BasicBot.request`: if `signed`, stamp and sign the params (appending
the signature last); if `dry_run`, short-circuit with the echo; otherwise
dispatch GET/POST/DELETE (any other method raises `ValueError` before its
HTTP call), record the call, and classify the response.  Network-layer
failures propagate as `.netError`. -/
def BasicBot.request (bot : BasicBot) (env : Env) (now : Int)
    (method path : String) (params : Params) (signed : Bool) (tr : List NetCall) :
    Except BotErr ReqResult × List NetCall :=
  let url := bot.base_url ++ path
  let (full_params, tr1) := bot.envelope env now params signed tr
  if bot.dry_run then
    (.ok (.dryEcho method url full_params), tr1)
  else if methodAllowed (pyUpper method) then
    let c : NetCall := ⟨pyUpper method, url, full_params⟩
    match doCall env tr1 c with
    | (.netErr m, tr2) => (.error (.netError m), tr2)
    | (.resp r, tr2) => (classify r, tr2)
  else
    (.error (.valueError ("Unsupported method: " ++ method)), tr1)

/-- Python `str(b).lower()` for a bool. -/
def pyBoolStr (b : Bool) : String := if b then "true" else "false"

/-- `BasicBot.place_order`: normalize symbol/side/type to upper case,
validate side and type, assemble the params dict in fixed insertion order
(`positionSide` only when truthy, `price`/`timeInForce` only for LIMIT,
LIMIT without a price raises), then POST `ORDER_PATH` signed. -/
def BasicBot.place_order (bot : BasicBot) (env : Env) (now : Int)
    (symbol side order_type : String) (quantity : ℚ) (price : Option ℚ)
    (time_in_force : String) (reduce_only : Bool) (close_position : Bool)
    (position_side : Option String) (tr : List NetCall) :
    Except BotErr ReqResult × List NetCall :=
  let symbol := pyUpper symbol
  let side := pyUpper side
  let order_type := pyUpper order_type
  if side ≠ "BUY" ∧ side ≠ "SELL" then
    (.error (.valueError "side must be BUY or SELL"), tr)
  else if order_type ≠ "MARKET" ∧ order_type ≠ "LIMIT" then
    (.error (.valueError "order_type must be MARKET or LIMIT"), tr)
  else
    let params : Params :=
      [("symbol", .pstr symbol), ("side", .pstr side), ("type", .pstr order_type),
       ("quantity", .prat quantity), ("reduceOnly", .pstr (pyBoolStr reduce_only)),
       ("closePosition", .pstr (pyBoolStr close_position))]
    let params := match position_side with
      | some ps => if ps ≠ "" then params ++ [("positionSide", .pstr ps)] else params
      | none => params
    if order_type = "LIMIT" then
      match price with
      | none => (.error (.valueError "LIMIT orders require a price"), tr)
      | some p =>
          let params := params ++ [("price", .pstr (floatStr p)), ("timeInForce", .pstr time_in_force)]
          bot.request env now "POST" ORDER_PATH params true tr
    else
      bot.request env now "POST" ORDER_PATH params true tr

/-- `BasicBot.place_market_order`. -/
def BasicBot.place_market_order (bot : BasicBot) (env : Env) (now : Int)
    (symbol side : String) (quantity : ℚ) (reduce_only : Bool)
    (position_side : Option String) (tr : List NetCall) :
    Except BotErr ReqResult × List NetCall :=
  bot.place_order env now symbol side "MARKET" quantity none "GTC" reduce_only false position_side tr

/-- `BasicBot.place_limit_order`. -/
def BasicBot.place_limit_order (bot : BasicBot) (env : Env) (now : Int)
    (symbol side : String) (quantity : ℚ) (price : ℚ) (time_in_force : String)
    (reduce_only : Bool) (position_side : Option String) (tr : List NetCall) :
    Except BotErr ReqResult × List NetCall :=
  bot.place_order env now symbol side "LIMIT" quantity (some price) time_in_force reduce_only false position_side tr

/-- One entry of the TWAP result list: a successful slice response, or the
`\x7b"error": str(e)\x7d` record of a caught per-slice failure. -/
inductive TwapEntry where
  | success (r : ReqResult)
  | errEntry (m : String)
deriving DecidableEq

/-- The TWAP loop body over the remaining slice count: submit one market
order per slice, catching any failure as an `errEntry`, and continue.
(The blocking `time.sleep` between consecutive slices performs no network
activity and is not modelled in the trace.) -/
def twapLoop (bot : BasicBot) (env : Env) (now : Int) (symbol side : String)
    (slice_qty : ℚ) : Nat → List NetCall → List TwapEntry × List NetCall
  | 0, tr => ([], tr)
  | n + 1, tr =>
      let step := bot.place_market_order env now symbol side slice_qty false none tr
      let entry : TwapEntry := match step.1 with
        | .ok r => .success r
        | .error e => .errEntry (errStr e)
      let rest := twapLoop bot env now symbol side slice_qty n step.2
      (entry :: rest.1, rest.2)

/-- `BasicBot.place_twap_order`: validate `slices ≥ 1` and `duration ≥ 0`
up front (raising `ValueError` before any submission), split the quantity
into `slices` equal parts, and run the slice loop, returning one entry per
slice in submission order. -/
def BasicBot.place_twap_order (bot : BasicBot) (env : Env) (now : Int)
    (symbol side : String) (quantity : ℚ) (slices : Int) (duration : Int)
    (tr : List NetCall) : Except BotErr (List TwapEntry) × List NetCall :=
  if slices < 1 then (.error (.valueError "slices must be >= 1"), tr)
  else if duration < 0 then (.error (.valueError "duration must be >= 0"), tr)
  else
    let slice_qty : ℚ := quantity / (slices : ℚ)
    let run := twapLoop bot env now symbol side slice_qty slices.toNat tr
    (.ok run.1, run.2)

/-! ## Statement helpers and scripted environments -/

/-- The params dict `place_order` builds for a MARKET order with the
defaults `place_market_order` passes inside a TWAP slice
(`reduce_only = False`, `position_side = None`). -/
def marketParams (symbol side : String) (q : ℚ) : Params :=
  [("symbol", .pstr (pyUpper symbol)), ("side", .pstr (pyUpper side)), ("type", .pstr "MARKET"),
   ("quantity", .prat q), ("reduceOnly", .pstr "false"), ("closePosition", .pstr "false")]

/-- Is this transport call the order submission `POST \x7bbase\x7d/fapi/v1/order`? -/
def isOrderPost (base : String) (c : NetCall) : Bool :=
  c.method == "POST" && c.url == base ++ ORDER_PATH

/-- Number of order submissions recorded in a trace. -/
def postCount (base : String) (tr : List NetCall) : Nat :=
  (tr.filter (isOrderPost base)).length

/-- The requested quantity carried by a parameter set (0 if absent). -/
def qtyParam (ps : Params) : ℚ :=
  match ps.find? (fun kv => kv.1 = "quantity") with
  | some (_, .prat q) => q
  | _ => 0

/-- A well-formed time-endpoint body. -/
def timeBody : JObj := [("serverTime", .jnum 1700000000000)]

/-- A successful order-endpoint body. -/
def okOrderBody : JObj := [("orderId", .jnum 1)]

/-- The message of the injected transport failure. -/
def failMsg : String := "simulated transport failure"

/-- An environment that answers every call with a healthy time-endpoint
body (used where only the time-sync call is ever consulted). -/
def envTime : Env := fun _ _ => .resp ⟨200, "time", timeBody⟩

/-- An environment that serves the time endpoint and every order
submission successfully, except that the `k`-th order `POST` (1-based,
counted over the whole run) fails at the network layer. -/
def envFailAt (base : String) (k : Nat) : Env := fun tr c =>
  if isOrderPost base c then
    if postCount base tr + 1 = k then .netErr failMsg
    else .resp ⟨200, "ok", okOrderBody⟩
  else .resp ⟨200, "time", timeBody⟩

/-- A dry-run client against the testnet base URL. -/
def botDry : BasicBot :=
  ⟨"test-key", utf8Bytes "test-secret", "https://testnet.binancefuture.com", true⟩

/-- A live (non-dry-run) client against the testnet base URL. -/
def botLive : BasicBot :=
  ⟨"test-key", utf8Bytes "test-secret", "https://testnet.binancefuture.com", false⟩

deriving instance DecidableEq for Except

/-- A result is a raised `ValueError` (the program's validation and
configuration failure kind). -/
def isValErr (e : Except BotErr ReqResult) : Prop :=
  ∃ m, e = .error (.valueError m)

/-! ## Structural lemmas about the pipeline -/

/-- `_timestamped_params` always returns the stamped set (some timestamp,
then the fixed `recvWindow`), records exactly the one time-sync call, and
never raises. -/
theorem tsp_shape (bot : BasicBot) (env : Env) (now : Int) (extra : Params) (tr : List NetCall) :
    ∃ ts : Int, bot._timestamped_params env now extra tr =
      (dictSet (dictSet extra "timestamp" (.pint ts)) "recvWindow" (.pint RECV_WINDOW),
       tr ++ [timeCall bot]) := by
  rcases henv : env tr (timeCall bot) with r | m
  · rcases hst : serverTimeNum r.json with _ | t
    · exact ⟨now, by simp [BasicBot._timestamped_params, BasicBot.get_server_time, doCall, henv, hst]⟩
    · exact ⟨t + 500, by simp [BasicBot._timestamped_params, BasicBot.get_server_time, doCall, henv, hst]⟩
  · exact ⟨now, by simp [BasicBot._timestamped_params, BasicBot.get_server_time, doCall, henv]⟩

/-- The signing stage for a signed request: the final envelope is the
stamped set with the signature over it appended, and the trace grows by
exactly the time-sync call. -/
theorem envelope_signed (bot : BasicBot) (env : Env) (now : Int) (params : Params) (tr : List NetCall) :
    bot.envelope env now params true tr =
      (dictSet (bot._timestamped_params env now params tr).1 "signature"
         (.pstr (bot._sign (bot._timestamped_params env now params tr).1)),
       tr ++ [timeCall bot]) := by
  obtain ⟨ts, h⟩ := tsp_shape bot env now params tr
  simp [BasicBot.envelope, h]

/-- With a valid side, `place_market_order` is exactly a signed POST of the
MARKET parameter set to the order path. -/
theorem place_market_order_eq (bot : BasicBot) (env : Env) (now : Int)
    (symbol side : String) (q : ℚ) (tr : List NetCall)
    (hs : pyUpper side = "BUY" ∨ pyUpper side = "SELL") :
    bot.place_market_order env now symbol side q false none tr =
      bot.request env now "POST" ORDER_PATH (marketParams symbol side q) true tr := by
  have hM : pyUpper "MARKET" = "MARKET" := by decide
  rcases hs with hs | hs <;>
    simp [BasicBot.place_market_order, BasicBot.place_order, marketParams, pyBoolStr, hs, hM]

/-- Classification of an HTTP response never raises `ValueError`. -/
theorem classify_not_valueError (r : HttpResp) (m : String) :
    classify r ≠ .error (.valueError m) := by
  unfold classify
  by_cases h0 : r.text = ""
  · cases h1 : respOk r.status <;> simp [h0, h1, negCode, jget]
  · cases h1 : respOk r.status <;> cases h2 : negCode r.json <;> simp [h0, h1, h2]

/-- `dictSet` on a dict not containing the key is an append (the order of
first insertion is preserved). -/
theorem dictSet_of_not_mem (p : Params) (k : String) (v : PVal)
    (h : p.any (fun kv => kv.1 = k) = false) : dictSet p k v = p ++ [(k, v)] := by
  simp [dictSet, h]

/-- An environment with the transport down: every call fails at the
network layer. -/
def envDown : Env := fun _ _ => .netErr "connection refused"

/-- An environment whose time endpoint answers 200 with a body carrying no
usable `serverTime`. -/
def envBadTime : Env := fun _ _ => .resp ⟨200, "bad", [("note", .jstr "no serverTime")]⟩

/-- An environment answering every call `304 Not Modified` with an empty
body: a non-2xx status that `requests` counts as `ok`. -/
def env304 : Env := fun _ _ => .resp ⟨304, "", []⟩

/-- A 400 response with both a `msg` and a negative `code`. -/
def respC2 : HttpResp :=
  ⟨400, "raw", [("code", .jnum (-1021)), ("msg", .jstr "Timestamp outside recvWindow")]⟩

/-- An environment answering every call with `respC2`. -/
def env400 : Env := fun _ _ => .resp respC2

/-- A 200 response whose body reports the functional error `code = -1021`. -/
def resp200neg : HttpResp :=
  ⟨200, "raw", [("code", .jnum (-1021)), ("msg", .jstr "Timestamp outside recvWindow")]⟩

/-- An environment answering every call with `resp200neg`. -/
def env200neg : Env := fun _ _ => .resp resp200neg

/-! ## Claim C5 — clock synchronization with local fallback -/

/-- Claim C5: for every signed request, the timestamping step stamps
`serverTime + 500` when the GET to the time endpoint succeeds with a
usable body, and on any failure (network error, or a body with no usable
`serverTime`) falls back to the local wall-clock `now` without aborting
(it always returns a stamped parameter set); in every branch the fixed
`recvWindow = 15000` is attached. -/
theorem c5_clock_sync (bot : BasicBot) (env : Env) (now : Int) (extra : Params)
    (tr : List NetCall) (r : HttpResp) (t : Int) (m : String) :
    (env tr (timeCall bot) = .resp r → serverTimeNum r.json = some t →
      bot._timestamped_params env now extra tr =
        (dictSet (dictSet extra "timestamp" (.pint (t + 500))) "recvWindow" (.pint RECV_WINDOW),
         tr ++ [timeCall bot])) ∧
    (env tr (timeCall bot) = .netErr m →
      bot._timestamped_params env now extra tr =
        (dictSet (dictSet extra "timestamp" (.pint now)) "recvWindow" (.pint RECV_WINDOW),
         tr ++ [timeCall bot])) ∧
    (env tr (timeCall bot) = .resp r → serverTimeNum r.json = none →
      bot._timestamped_params env now extra tr =
        (dictSet (dictSet extra "timestamp" (.pint now)) "recvWindow" (.pint RECV_WINDOW),
         tr ++ [timeCall bot])) := by
  refine ⟨?_, ?_, ?_⟩
  · intro h h'
    simp [BasicBot._timestamped_params, BasicBot.get_server_time, doCall, h, h']
  · intro h
    simp [BasicBot._timestamped_params, BasicBot.get_server_time, doCall, h]
  · intro h h'
    simp [BasicBot._timestamped_params, BasicBot.get_server_time, doCall, h, h']

/-- Witness for C5: all three branches exercised on concrete
environments — a healthy time endpoint, a downed transport, and a
malformed time body. -/
theorem c5_witness :
    (botLive._timestamped_params envTime 111 [] [] =
      (dictSet (dictSet [] "timestamp" (.pint (1700000000000 + 500))) "recvWindow" (.pint RECV_WINDOW),
       [] ++ [timeCall botLive])) ∧
    (botLive._timestamped_params envDown 111 [] [] =
      (dictSet (dictSet [] "timestamp" (.pint 111)) "recvWindow" (.pint RECV_WINDOW),
       [] ++ [timeCall botLive])) ∧
    (botLive._timestamped_params envBadTime 111 [] [] =
      (dictSet (dictSet [] "timestamp" (.pint 111)) "recvWindow" (.pint RECV_WINDOW),
       [] ++ [timeCall botLive])) :=
  ⟨(c5_clock_sync botLive envTime 111 [] [] ⟨200, "time", timeBody⟩ 1700000000000 "").1 rfl rfl,
   (c5_clock_sync botLive envDown 111 [] [] ⟨200, "", []⟩ 0 "connection refused").2.1 rfl,
   (c5_clock_sync botLive envBadTime 111 [] [] ⟨200, "bad", [("note", .jstr "no serverTime")]⟩ 0 "").2.2 rfl rfl⟩

/-! ## Claim C8 — TWAP fail-fast validation -/

/-- Claim C8: `place_twap_order` raises `ValueError` when `slices < 1` or
`duration < 0`, and the check happens before any order is placed: the
network trace is returned unchanged (no I/O at all). -/
theorem c8_twap_validates_before_io (bot : BasicBot) (env : Env) (now : Int)
    (symbol side : String) (q : ℚ) (slices duration : Int) (tr : List NetCall)
    (hbad : slices < 1 ∨ duration < 0) :
    ∃ m, bot.place_twap_order env now symbol side q slices duration tr =
      (.error (.valueError m), tr) := by
  by_cases h1 : slices < 1
  · exact ⟨"slices must be >= 1", by simp [BasicBot.place_twap_order, h1]⟩
  · rcases hbad with h | h
    · exact absurd h h1
    · exact ⟨"duration must be >= 0", by simp [BasicBot.place_twap_order, h1, h]⟩

/-- Witness for C8: zero slices are rejected with no network call. -/
theorem c8_witness :
    ((0 : Int) < 1 ∨ (60 : Int) < 0) ∧
    ∃ m, botLive.place_twap_order envTime 0 "BTCUSDT" "BUY" 1 0 60 [] =
      (.error (.valueError m), []) :=
  ⟨Or.inl (by decide),
   c8_twap_validates_before_io botLive envTime 0 "BTCUSDT" "BUY" 1 0 60 [] (Or.inl (by decide))⟩

/-! ## Claim C9 — unsupported methods (corrected) -/

/-- Counterexample to C9 as stated: a signed request with an unsupported
method does perform network activity before failing — the time-sync GET
has already been recorded when the `ValueError` is raised. -/
theorem c9_counterexample :
    (botLive.request envTime 0 "PATCH" "/fapi/v1/order" [] true []).1 =
        .error (.valueError "Unsupported method: PATCH") ∧
    (botLive.request envTime 0 "PATCH" "/fapi/v1/order" [] true []).2 =
        [⟨"GET", "https://testnet.binancefuture.com/fapi/v1/time", []⟩] ∧
    (botLive.request envTime 0 "PATCH" "/fapi/v1/order" [] true []).2 ≠ [] := by
  refine ⟨by decide, by decide, by decide⟩

/-- Claim C9 (amended): with dry-run disabled, a request whose method is
not GET/POST/DELETE fails with the configuration `ValueError` and its own
HTTP call is never dispatched; an unsigned such request performs no
network activity at all, while a signed one has by then performed exactly
the time-sync GET (signing precedes the method check). -/
theorem c9_unsupported_method (bot : BasicBot) (env : Env) (now : Int)
    (method path : String) (params : Params) (tr : List NetCall)
    (hd : bot.dry_run = false) (hm : methodAllowed (pyUpper method) = false) :
    (bot.request env now method path params false tr =
        (.error (.valueError ("Unsupported method: " ++ method)), tr)) ∧
    (bot.request env now method path params true tr =
        (.error (.valueError ("Unsupported method: " ++ method)), tr ++ [timeCall bot])) := by
  constructor
  · simp [BasicBot.request, BasicBot.envelope, hd, hm]
  · simp [BasicBot.request, envelope_signed, hd, hm]

/-- Witness for C9 (amended), at method `"PATCH"`. -/
theorem c9_witness :
    botLive.dry_run = false ∧ methodAllowed (pyUpper "PATCH") = false ∧
    ((botLive.request envTime 0 "PATCH" "/fapi/v1/order" [] false [] =
        (.error (.valueError ("Unsupported method: " ++ "PATCH")), [])) ∧
     (botLive.request envTime 0 "PATCH" "/fapi/v1/order" [] true [] =
        (.error (.valueError ("Unsupported method: " ++ "PATCH")), [] ++ [timeCall botLive]))) :=
  ⟨rfl, by decide,
   c9_unsupported_method botLive envTime 0 "PATCH" "/fapi/v1/order" [] [] rfl (by decide)⟩

/-! ## Claim C10 — dry-run echoes any method -/

/-- Claim C10: with dry-run enabled the dispatcher returns the dry-run
echo for any method string whatsoever (e.g. `"PATCH"`), signed or not;
the unsupported-method check is never reached. -/
theorem c10_dry_run_any_method (bot : BasicBot) (env : Env) (now : Int)
    (method path : String) (params : Params) (signed : Bool) (tr : List NetCall)
    (hd : bot.dry_run = true) :
    (∃ fp tr1, bot.request env now method path params signed tr =
        (.ok (.dryEcho method (bot.base_url ++ path) fp), tr1)) ∧
    (signed = false → bot.request env now method path params signed tr =
        (.ok (.dryEcho method (bot.base_url ++ path) params), tr)) := by
  constructor
  · cases signed
    · exact ⟨params, tr, by simp [BasicBot.request, BasicBot.envelope, hd]⟩
    · refine ⟨dictSet (bot._timestamped_params env now params tr).1 "signature"
          (.pstr (bot._sign (bot._timestamped_params env now params tr).1)),
        tr ++ [timeCall bot], ?_⟩
      simp [BasicBot.request, envelope_signed, hd]
  · rintro rfl
    simp [BasicBot.request, BasicBot.envelope, hd]

/-- Witness for C10: a signed dry-run `"PATCH"` request returns an echo
rather than the unsupported-method error. -/
theorem c10_witness :
    botDry.dry_run = true ∧
    ((∃ fp tr1, botDry.request envTime 0 "PATCH" "/fapi/v1/order" [] true [] =
        (.ok (.dryEcho "PATCH" (botDry.base_url ++ "/fapi/v1/order") fp), tr1)) ∧
     (true = false → botDry.request envTime 0 "PATCH" "/fapi/v1/order" [] true [] =
        (.ok (.dryEcho "PATCH" (botDry.base_url ++ "/fapi/v1/order") []), []))) :=
  ⟨rfl, c10_dry_run_any_method botDry envTime 0 "PATCH" "/fapi/v1/order" [] true [] rfl⟩

/-! ## Claim C1 — dry-run echo of the signed envelope (corrected) -/

/-- Counterexample to C1 as stated: a dry-run `place_market_order` does
not perform zero network calls — the signing stage's time-sync GET is
executed (and recorded) before the dry-run short circuit. -/
theorem c1_counterexample :
    (botDry.place_market_order envTime 0 "BTCUSDT" "BUY" (1 / 1000) false none []).2 =
      [⟨"GET", "https://testnet.binancefuture.com/fapi/v1/time", []⟩] ∧
    (botDry.place_market_order envTime 0 "BTCUSDT" "BUY" (1 / 1000) false none []).2 ≠ [] := by
  refine ⟨by decide, by decide⟩

/-- Claim C1 (amended): with dry-run enabled, `place_market_order`
performs no order-submission HTTP call — the only network activity is the
one time-sync GET made while stamping — and returns a dry-run echo whose
params are the fully signed set: the MARKET parameters, then `timestamp`,
then the fixed `recvWindow`, then the signature computed over exactly that
ordered set, appended last. -/
theorem c1_dry_run_echo (bot : BasicBot) (env : Env) (now : Int)
    (symbol side : String) (q : ℚ) (tr : List NetCall)
    (hd : bot.dry_run = true) (hs : pyUpper side = "BUY" ∨ pyUpper side = "SELL") :
    ∃ ts : Int,
      bot.place_market_order env now symbol side q false none tr =
        (.ok (.dryEcho "POST" (bot.base_url ++ ORDER_PATH)
          ((marketParams symbol side q ++
              [("timestamp", PVal.pint ts), ("recvWindow", PVal.pint RECV_WINDOW)]) ++
            [("signature", PVal.pstr (bot._sign (marketParams symbol side q ++
              [("timestamp", PVal.pint ts), ("recvWindow", PVal.pint RECV_WINDOW)])))])),
         tr ++ [timeCall bot]) := by
  obtain ⟨ts, htsp⟩ := tsp_shape bot env now (marketParams symbol side q) tr
  have h1 : (marketParams symbol side q).any (fun kv => kv.1 = "timestamp") = false := by
    simp [marketParams]
  have h2 : (marketParams symbol side q ++ [("timestamp", PVal.pint ts)]).any
      (fun kv => kv.1 = "recvWindow") = false := by
    simp [marketParams]
  have h3 : (marketParams symbol side q ++
      [("timestamp", PVal.pint ts), ("recvWindow", PVal.pint RECV_WINDOW)]).any
      (fun kv => kv.1 = "signature") = false := by
    simp [marketParams]
  have hfp : (bot._timestamped_params env now (marketParams symbol side q) tr).1 =
      marketParams symbol side q ++
        [("timestamp", PVal.pint ts), ("recvWindow", PVal.pint RECV_WINDOW)] := by
    rw [htsp]
    show dictSet (dictSet (marketParams symbol side q) "timestamp" (.pint ts))
        "recvWindow" (.pint RECV_WINDOW) = _
    rw [dictSet_of_not_mem _ _ _ h1, dictSet_of_not_mem _ _ _ h2]
    simp
  refine ⟨ts, ?_⟩
  rw [place_market_order_eq bot env now symbol side q tr hs]
  have e1 := envelope_signed bot env now (marketParams symbol side q) tr
  rw [hfp] at e1
  rw [dictSet_of_not_mem _ _ _ h3] at e1
  simp [BasicBot.request, e1, hd]

/-- Witness for C1 (amended) at the claim's example
`placeMarketOrder("BTCUSDT", "BUY", 0.001)`. -/
theorem c1_witness :
    botDry.dry_run = true ∧ (pyUpper "BUY" = "BUY" ∨ pyUpper "BUY" = "SELL") ∧
    ∃ ts : Int,
      botDry.place_market_order envTime 0 "BTCUSDT" "BUY" (1 / 1000) false none [] =
        (.ok (.dryEcho "POST" (botDry.base_url ++ ORDER_PATH)
          ((marketParams "BTCUSDT" "BUY" (1 / 1000) ++
              [("timestamp", PVal.pint ts), ("recvWindow", PVal.pint RECV_WINDOW)]) ++
            [("signature", PVal.pstr (botDry._sign (marketParams "BTCUSDT" "BUY" (1 / 1000) ++
              [("timestamp", PVal.pint ts), ("recvWindow", PVal.pint RECV_WINDOW)])))])),
         [] ++ [timeCall botDry]) :=
  ⟨rfl, Or.inl (by decide),
   c1_dry_run_echo botDry envTime 0 "BTCUSDT" "BUY" (1 / 1000) [] rfl (Or.inl (by decide))⟩

/-! ## Claim C2 — response classification (corrected) -/

/-- Counterexample to C2 as stated: a `304` response — a non-2xx status —
is not classified as an `ApiError`; the code keys on `requests`' `resp.ok`
(false only for 400–599), so the 304 comes back as a success payload. -/
theorem c2_counterexample :
    ((304 : Nat) < 200 ∨ 300 ≤ (304 : Nat)) ∧
    botLive.request env304 0 "GET" "/fapi/v1/ping" [] false [] =
      (.ok (.payload []), [⟨"GET", "https://testnet.binancefuture.com/fapi/v1/ping", []⟩]) := by
  refine ⟨by decide, by decide⟩

/-- Claim C2 (amended): for every executed request, a status `requests`
counts as not-ok (400–599) yields a `BinanceAPIError` carrying the body's
`msg` field when truthy (else the raw body text); and an ok status whose
parsed body carries a negative numeric `code` also yields a
`BinanceAPIError` rather than a success result. -/
theorem c2_api_error_classification (bot : BasicBot) (env : Env) (now : Int)
    (method path : String) (params : Params) (signed : Bool) (tr : List NetCall) (r : HttpResp)
    (hd : bot.dry_run = false) (hm : methodAllowed (pyUpper method) = true)
    (henv : env (bot.envelope env now params signed tr).2
        ⟨pyUpper method, bot.base_url ++ path, (bot.envelope env now params signed tr).1⟩ =
        .resp r) :
    (respOk r.status = false →
      (bot.request env now method path params signed tr).1 =
        .error (.apiError ("HTTP " ++ toString r.status ++ " error: " ++
          msgOrText (if r.text = "" then [] else r.json) r.text))) ∧
    (respOk r.status = true →
      negCode (if r.text = "" then [] else r.json) = true →
      (bot.request env now method path params signed tr).1 =
        .error (.apiError ("Binance error: " ++
          jobjRepr (if r.text = "" then [] else r.json)))) := by
  rcases hfp : bot.envelope env now params signed tr with ⟨fp, tr1⟩
  rw [hfp] at henv
  constructor
  · intro hok
    simp [BasicBot.request, hfp, hd, hm, doCall, henv, classify, hok]
  · intro hok hneg
    simp [BasicBot.request, hfp, hd, hm, doCall, henv, classify, hok, hneg]

/-- Witness for C2 (amended): both error channels exercised — a 400 with
a truthy `msg`, and a 200 whose body reports `code = -1021`. -/
theorem c2_witness :
    (respOk respC2.status = false ∧
      (botLive.request env400 0 "GET" "/fapi/v1/order" [] false []).1 =
        .error (.apiError ("HTTP " ++ toString respC2.status ++ " error: " ++
          msgOrText (if respC2.text = "" then [] else respC2.json) respC2.text))) ∧
    (respOk resp200neg.status = true ∧ negCode resp200neg.json = true ∧
      (botLive.request env200neg 0 "GET" "/fapi/v1/order" [] false []).1 =
        .error (.apiError ("Binance error: " ++
          jobjRepr (if resp200neg.text = "" then [] else resp200neg.json)))) := by
  refine ⟨⟨by decide, ?_⟩, by decide, by decide, ?_⟩
  · exact (c2_api_error_classification botLive env400 0 "GET" "/fapi/v1/order" [] false []
      respC2 rfl (by decide) rfl).1 (by decide)
  · exact (c2_api_error_classification botLive env200neg 0 "GET" "/fapi/v1/order" [] false []
      resp200neg rfl (by decide) rfl).2 (by decide) (by decide)

/-! ## Claim C6 — order building and validation -/

/-- The six-field params dict `place_order` always builds (plus
`positionSide` when truthy), with the given normalized type string. -/
def baseParams (symbol side tstr : String) (q : ℚ) (ro cp : Bool)
    (pos : Option String) : Params :=
  let ps0 : Params :=
    [("symbol", .pstr (pyUpper symbol)), ("side", .pstr (pyUpper side)), ("type", .pstr tstr),
     ("quantity", .prat q), ("reduceOnly", .pstr (pyBoolStr ro)),
     ("closePosition", .pstr (pyBoolStr cp))]
  match pos with
  | some ps => if ps ≠ "" then ps0 ++ [("positionSide", .pstr ps)] else ps0
  | none => ps0

/-- The params dict of a LIMIT order: the base fields, then `price` as
`str(price)` and the supplied `timeInForce`. -/
def limitParams (symbol side : String) (q : ℚ) (ro cp : Bool) (pos : Option String)
    (p : ℚ) (tif : String) : Params :=
  baseParams symbol side "LIMIT" q ro cp pos ++
    [("price", .pstr (floatStr p)), ("timeInForce", .pstr tif)]

/-- An invalid side is rejected immediately, before any I/O. -/
theorem place_order_bad_side (bot : BasicBot) (env : Env) (now : Int)
    (symbol side order_type : String) (q : ℚ) (price : Option ℚ) (tif : String)
    (ro cp : Bool) (pos : Option String) (tr : List NetCall)
    (h1 : pyUpper side ≠ "BUY" ∧ pyUpper side ≠ "SELL") :
    bot.place_order env now symbol side order_type q price tif ro cp pos tr =
      (.error (.valueError "side must be BUY or SELL"), tr) := by
  simp [BasicBot.place_order, h1.1, h1.2]

/-- An invalid type (with a valid side) is rejected immediately. -/
theorem place_order_bad_type (bot : BasicBot) (env : Env) (now : Int)
    (symbol side order_type : String) (q : ℚ) (price : Option ℚ) (tif : String)
    (ro cp : Bool) (pos : Option String) (tr : List NetCall)
    (hs : pyUpper side = "BUY" ∨ pyUpper side = "SELL")
    (h2 : pyUpper order_type ≠ "MARKET" ∧ pyUpper order_type ≠ "LIMIT") :
    bot.place_order env now symbol side order_type q price tif ro cp pos tr =
      (.error (.valueError "order_type must be MARKET or LIMIT"), tr) := by
  rcases hs with hs | hs <;> simp [BasicBot.place_order, hs, h2.1, h2.2]

/-- A LIMIT order without a price is rejected immediately. -/
theorem place_order_limit_no_price (bot : BasicBot) (env : Env) (now : Int)
    (symbol side order_type : String) (q : ℚ) (price : Option ℚ) (tif : String)
    (ro cp : Bool) (pos : Option String) (tr : List NetCall)
    (hs : pyUpper side = "BUY" ∨ pyUpper side = "SELL")
    (hL : pyUpper order_type = "LIMIT") (hp : price = none) :
    bot.place_order env now symbol side order_type q price tif ro cp pos tr =
      (.error (.valueError "LIMIT orders require a price"), tr) := by
  rcases hs with hs | hs <;> simp [BasicBot.place_order, hs, hL, hp]

/-- A valid MARKET order is a signed POST of the base params. -/
theorem place_order_market (bot : BasicBot) (env : Env) (now : Int)
    (symbol side order_type : String) (q : ℚ) (price : Option ℚ) (tif : String)
    (ro cp : Bool) (pos : Option String) (tr : List NetCall)
    (hs : pyUpper side = "BUY" ∨ pyUpper side = "SELL")
    (hM : pyUpper order_type = "MARKET") :
    bot.place_order env now symbol side order_type q price tif ro cp pos tr =
      bot.request env now "POST" ORDER_PATH (baseParams symbol side "MARKET" q ro cp pos) true tr := by
  rcases hs with hs | hs <;> simp [BasicBot.place_order, baseParams, hs, hM]

/-- A valid LIMIT order with a price is a signed POST of the limit params. -/
theorem place_order_limit_with_price (bot : BasicBot) (env : Env) (now : Int)
    (symbol side order_type : String) (q : ℚ) (price : Option ℚ) (tif : String)
    (ro cp : Bool) (pos : Option String) (tr : List NetCall) (p : ℚ)
    (hs : pyUpper side = "BUY" ∨ pyUpper side = "SELL")
    (hL : pyUpper order_type = "LIMIT") (hp : price = some p) :
    bot.place_order env now symbol side order_type q price tif ro cp pos tr =
      bot.request env now "POST" ORDER_PATH (limitParams symbol side q ro cp pos p tif) true tr := by
  rcases hs with hs | hs <;> simp [BasicBot.place_order, limitParams, baseParams, hs, hL, hp]

/-- A POST through the dispatcher never raises `ValueError`: its failures
are `BinanceAPIError` or network errors only. -/
theorem request_post_not_valueError (bot : BasicBot) (env : Env) (now : Int)
    (path : String) (params : Params) (signed : Bool) (tr : List NetCall) (m : String) :
    (bot.request env now "POST" path params signed tr).1 ≠ .error (.valueError m) := by
  rcases hfp : bot.envelope env now params signed tr with ⟨fp, tr1⟩
  by_cases hd : bot.dry_run
  · simp [BasicBot.request, hfp, hd]
  · have hm : methodAllowed (pyUpper "POST") = true := by decide
    rcases henv : env tr1 ⟨pyUpper "POST", bot.base_url ++ path, fp⟩ with r | s
    · simpa [BasicBot.request, hfp, hd, hm, doCall, henv] using classify_not_valueError r m
    · simp [BasicBot.request, hfp, hd, hm, doCall, henv]

/-- Claim C6: order building raises `ValueError` exactly when (after
upper-casing) the side is not BUY/SELL, or the type is not MARKET/LIMIT,
or the type is LIMIT with no price; and a LIMIT order with a price
succeeds (no `ValueError`), its parameter set carrying `price = str(price)`
and the supplied `timeInForce`. -/
theorem c6_order_validation (bot : BasicBot) (env : Env) (now : Int)
    (symbol side order_type : String) (q : ℚ) (price : Option ℚ) (tif : String)
    (ro cp : Bool) (pos : Option String) (tr : List NetCall) :
    (isValErr (bot.place_order env now symbol side order_type q price tif ro cp pos tr).1 ↔
      (pyUpper side ≠ "BUY" ∧ pyUpper side ≠ "SELL") ∨
      (pyUpper order_type ≠ "MARKET" ∧ pyUpper order_type ≠ "LIMIT") ∨
      (pyUpper order_type = "LIMIT" ∧ price = none)) ∧
    (∀ p : ℚ, (pyUpper side = "BUY" ∨ pyUpper side = "SELL") →
      pyUpper order_type = "LIMIT" → price = some p →
      bot.place_order env now symbol side order_type q price tif ro cp pos tr =
        bot.request env now "POST" ORDER_PATH (limitParams symbol side q ro cp pos p tif) true tr ∧
      ("price", PVal.pstr (floatStr p)) ∈ limitParams symbol side q ro cp pos p tif ∧
      ("timeInForce", PVal.pstr tif) ∈ limitParams symbol side q ro cp pos p tif ∧
      ¬ isValErr (bot.place_order env now symbol side order_type q price tif ro cp pos tr).1) := by
  constructor
  · constructor
    · intro hv
      by_cases h1 : pyUpper side ≠ "BUY" ∧ pyUpper side ≠ "SELL"
      · exact Or.inl h1
      · have hs : pyUpper side = "BUY" ∨ pyUpper side = "SELL" := by
          rcases not_and_or.mp h1 with h | h
          · exact Or.inl (not_not.mp h)
          · exact Or.inr (not_not.mp h)
        by_cases h2 : pyUpper order_type ≠ "MARKET" ∧ pyUpper order_type ≠ "LIMIT"
        · exact Or.inr (Or.inl h2)
        · have ht : pyUpper order_type = "MARKET" ∨ pyUpper order_type = "LIMIT" := by
            rcases not_and_or.mp h2 with h | h
            · exact Or.inl (not_not.mp h)
            · exact Or.inr (not_not.mp h)
          rcases ht with hM | hL
          · rw [place_order_market bot env now symbol side order_type q price tif ro cp pos tr hs hM] at hv
            obtain ⟨m, hm⟩ := hv
            exact absurd hm (request_post_not_valueError bot env now ORDER_PATH _ true tr m)
          · rcases price with _ | p
            · exact Or.inr (Or.inr ⟨hL, rfl⟩)
            · rw [place_order_limit_with_price bot env now symbol side order_type q (some p) tif ro cp pos tr p hs hL rfl] at hv
              obtain ⟨m, hm⟩ := hv
              exact absurd hm (request_post_not_valueError bot env now ORDER_PATH _ true tr m)
    · intro hb
      by_cases h1 : pyUpper side ≠ "BUY" ∧ pyUpper side ≠ "SELL"
      · exact ⟨"side must be BUY or SELL",
          by rw [place_order_bad_side bot env now symbol side order_type q price tif ro cp pos tr h1]⟩
      · have hs : pyUpper side = "BUY" ∨ pyUpper side = "SELL" := by
          rcases not_and_or.mp h1 with h | h
          · exact Or.inl (not_not.mp h)
          · exact Or.inr (not_not.mp h)
        rcases hb with hb | hb | hb
        · exact absurd hb h1
        · exact ⟨"order_type must be MARKET or LIMIT",
            by rw [place_order_bad_type bot env now symbol side order_type q price tif ro cp pos tr hs hb]⟩
        · exact ⟨"LIMIT orders require a price",
            by rw [place_order_limit_no_price bot env now symbol side order_type q price tif ro cp pos tr hs hb.1 hb.2]⟩
  · intro p hs hL hp
    refine ⟨place_order_limit_with_price bot env now symbol side order_type q price tif ro cp pos tr p hs hL hp,
      ?_, ?_, ?_⟩
    · simp [limitParams]
    · simp [limitParams]
    · intro hv
      rw [place_order_limit_with_price bot env now symbol side order_type q price tif ro cp pos tr p hs hL hp] at hv
      obtain ⟨m, hm⟩ := hv
      exact absurd hm (request_post_not_valueError bot env now ORDER_PATH _ true tr m)

/-- Witness for C6: an invalid side is rejected; a LIMIT order at price
62000 with `timeInForce = "GTC"` builds a set carrying both fields and is
not rejected. -/
theorem c6_witness :
    (isValErr (botLive.place_order envTime 0 "BTCUSDT" "HOLD" "MARKET" 1 none "GTC"
        false false none []).1 ↔
      (pyUpper "HOLD" ≠ "BUY" ∧ pyUpper "HOLD" ≠ "SELL") ∨
      (pyUpper "MARKET" ≠ "MARKET" ∧ pyUpper "MARKET" ≠ "LIMIT") ∨
      (pyUpper "MARKET" = "LIMIT" ∧ (none : Option ℚ) = none)) ∧
    (botLive.place_order envTime 0 "BTCUSDT" "sell" "limit" 1 (some 62000) "GTC"
        false false none [] =
      botLive.request envTime 0 "POST" ORDER_PATH
        (limitParams "BTCUSDT" "sell" 1 false false none 62000 "GTC") true [] ∧
     ("price", PVal.pstr (floatStr 62000)) ∈ limitParams "BTCUSDT" "sell" 1 false false none 62000 "GTC" ∧
     ("timeInForce", PVal.pstr "GTC") ∈ limitParams "BTCUSDT" "sell" 1 false false none 62000 "GTC" ∧
     ¬ isValErr (botLive.place_order envTime 0 "BTCUSDT" "sell" "limit" 1 (some 62000) "GTC"
        false false none []).1) :=
  ⟨(c6_order_validation botLive envTime 0 "BTCUSDT" "HOLD" "MARKET" 1 none "GTC"
      false false none []).1,
   (c6_order_validation botLive envTime 0 "BTCUSDT" "sell" "limit" 1 (some 62000) "GTC"
      false false none []).2 62000 (Or.inr (by decide)) (by decide) rfl⟩

/-! ## Claim C4 — the signer -/

/-- Anchor: the serializer renders a params dict the way
`urlencode(..., doseq=True)` does — insertion order, `str()` of values,
`quote_plus` escaping (space to `+`, `+` to `%2B`), floats in shortest
decimal form. -/
theorem urlencode_anchor :
    urlencode [("symbol", .pstr "BTCUSDT"), ("quantity", .prat (mkRat 1 1000)),
      ("note", .pstr "a b+c"), ("timestamp", .pint 1499827319559)] =
      "symbol=BTCUSDT&quantity=0.001&note=a+b%2Bc&timestamp=1499827319559" := by
  decide

/-- Anchor: the full signer pipeline reproduces the signature example of
the official Binance REST API documentation (its published secret and
query string). -/
theorem hmac_binance_docs_vector :
    hexLower (hmacSha256
      (utf8Bytes "NhqPtmdSJYdKjVHjA7PZj4Mge3R5YNiP1e3UZjInClVN65XAbvqqM6A7H5fATj0j")
      (utf8Bytes "symbol=LTCBTC&side=BUY&type=LIMIT&timeInForce=GTC&quantity=1&price=0.1&recvWindow=5000&timestamp=1499827319559")) =
      "c8db56825ae71d6d79447849e617115f4a920fa2acdcab2b053c4b2838bd6b71" := by
  decide

/-- Claim C4: `_sign` is exactly lower-case-hex HMAC-SHA256, keyed by the
secret, of the UTF-8 query string serialized in insertion order (not
sorted, not deduplicated); it is deterministic; and two otherwise-identical
sets differing only in field order get different signatures (concrete
permuted pair exhibited). -/
theorem c4_signer (bot : BasicBot) (ps : Params) :
    bot._sign ps = hexLower (hmacSha256 bot.api_secret (utf8Bytes (urlencode ps))) ∧
    bot._sign ps = bot._sign ps ∧
    (∃ p1 p2 : Params, p1.Perm p2 ∧ p1 ≠ p2 ∧ botLive._sign p1 ≠ botLive._sign p2) := by
  refine ⟨rfl, rfl, [("a", .pstr "1"), ("b", .pstr "2")], [("b", .pstr "2"), ("a", .pstr "1")],
    ?_, ?_, ?_⟩
  · exact List.Perm.swap _ _ _
  · decide
  · decide

/-! ## TWAP machinery (claims C3 and C7) -/

/-- The time-sync call is not an order submission. -/
theorem isOrderPost_timeCall (bot : BasicBot) :
    isOrderPost bot.base_url (timeCall bot) = false := by
  simp [isOrderPost, timeCall]

/-- A POST to the order path is an order submission. -/
theorem isOrderPost_orderCall (bot : BasicBot) (ps : Params) :
    isOrderPost bot.base_url ⟨"POST", bot.base_url ++ ORDER_PATH, ps⟩ = true := by
  simp [isOrderPost]

/-- One slice's trace block bumps the order-submission count by one. -/
theorem postCount_append_block (bot : BasicBot) (ps : Params) (tr : List NetCall) :
    postCount bot.base_url (tr ++ [timeCall bot, ⟨"POST", bot.base_url ++ ORDER_PATH, ps⟩]) =
      postCount bot.base_url tr + 1 := by
  simp [postCount, List.filter_append, isOrderPost_timeCall, isOrderPost_orderCall]

/-- The signed envelope of a MARKET order: the six base fields, then
`timestamp`, `recvWindow`, and the signature over that set, with the
time-sync call recorded. -/
theorem market_envelope (bot : BasicBot) (env : Env) (now : Int)
    (symbol side : String) (sq : ℚ) (tr : List NetCall) :
    ∃ ts : Int,
      bot.envelope env now (marketParams symbol side sq) true tr =
        ((marketParams symbol side sq ++
            [("timestamp", PVal.pint ts), ("recvWindow", PVal.pint RECV_WINDOW)]) ++
          [("signature", PVal.pstr (bot._sign (marketParams symbol side sq ++
            [("timestamp", PVal.pint ts), ("recvWindow", PVal.pint RECV_WINDOW)])))],
         tr ++ [timeCall bot]) := by
  obtain ⟨ts, htsp⟩ := tsp_shape bot env now (marketParams symbol side sq) tr
  have h1 : (marketParams symbol side sq).any (fun kv => kv.1 = "timestamp") = false := by
    simp [marketParams]
  have h2 : (marketParams symbol side sq ++ [("timestamp", PVal.pint ts)]).any
      (fun kv => kv.1 = "recvWindow") = false := by
    simp [marketParams]
  have h3 : (marketParams symbol side sq ++
      [("timestamp", PVal.pint ts), ("recvWindow", PVal.pint RECV_WINDOW)]).any
      (fun kv => kv.1 = "signature") = false := by
    simp [marketParams]
  have hfp : (bot._timestamped_params env now (marketParams symbol side sq) tr).1 =
      marketParams symbol side sq ++
        [("timestamp", PVal.pint ts), ("recvWindow", PVal.pint RECV_WINDOW)] := by
    rw [htsp]
    show dictSet (dictSet (marketParams symbol side sq) "timestamp" (.pint ts))
        "recvWindow" (.pint RECV_WINDOW) = _
    rw [dictSet_of_not_mem _ _ _ h1, dictSet_of_not_mem _ _ _ h2]
    simp
  have e1 := envelope_signed bot env now (marketParams symbol side sq) tr
  rw [hfp] at e1
  rw [dictSet_of_not_mem _ _ _ h3] at e1
  exact ⟨ts, e1⟩

/-- The quantity field of a signed MARKET envelope is the slice quantity. -/
theorem qtyParam_market (symbol side : String) (sq : ℚ) (ts : Int) (s : String) :
    qtyParam ((marketParams symbol side sq ++
        [("timestamp", PVal.pint ts), ("recvWindow", PVal.pint RECV_WINDOW)]) ++
      [("signature", PVal.pstr s)]) = sq := by
  simp [qtyParam, marketParams, List.find?]

/-- A valid-side MARKET submission against any environment records exactly
the time-sync GET followed by the order POST, whose params request
exactly the given quantity. -/
theorem place_market_order_shape (bot : BasicBot) (env : Env) (now : Int)
    (symbol side : String) (sq : ℚ) (tr : List NetCall)
    (hd : bot.dry_run = false)
    (hs : pyUpper side = "BUY" ∨ pyUpper side = "SELL") :
    ∃ (e : Except BotErr ReqResult) (ps : Params),
      bot.place_market_order env now symbol side sq false none tr =
        (e, tr ++ [timeCall bot, ⟨"POST", bot.base_url ++ ORDER_PATH, ps⟩]) ∧
      qtyParam ps = sq := by
  obtain ⟨ts, e1⟩ := market_envelope bot env now symbol side sq tr
  have hqty := qtyParam_market symbol side sq ts
    (bot._sign (marketParams symbol side sq ++
      [("timestamp", PVal.pint ts), ("recvWindow", PVal.pint RECV_WINDOW)]))
  rw [place_market_order_eq bot env now symbol side sq tr hs]
  have hPOST : pyUpper "POST" = "POST" := by decide
  have hmAll : methodAllowed "POST" = true := by decide
  rcases henv : env (tr ++ [timeCall bot]) ⟨"POST", bot.base_url ++ ORDER_PATH,
      marketParams symbol side sq ++
        [("timestamp", PVal.pint ts), ("recvWindow", PVal.pint RECV_WINDOW),
         ("signature", PVal.pstr (bot._sign (marketParams symbol side sq ++
           [("timestamp", PVal.pint ts), ("recvWindow", PVal.pint RECV_WINDOW)])))]⟩ with r | m
  · exact ⟨classify r, _,
      by simp [BasicBot.request, e1, hd, hmAll, doCall, hPOST, henv], hqty⟩
  · exact ⟨.error (.netError m), _,
      by simp [BasicBot.request, e1, hd, hmAll, doCall, hPOST, henv], hqty⟩

/-- The TWAP loop returns one entry per slice against any environment:
every failure is caught and recorded in place. -/
theorem twapLoop_length (bot : BasicBot) (env : Env) (now : Int) (symbol side : String)
    (sq : ℚ) : ∀ (n : Nat) (tr : List NetCall),
    (twapLoop bot env now symbol side sq n tr).1.length = n := by
  intro n
  induction n with
  | zero => intro tr; simp [twapLoop]
  | succ m ih => intro tr; simp [twapLoop, ih]

/-- Sum of a constant-valued map. -/
theorem sum_map_const_rat {α : Type} (l : List α) (f : α → ℚ) (c : ℚ)
    (h : ∀ x ∈ l, f x = c) : (l.map f).sum = (l.length : ℚ) * c := by
  induction l with
  | nil => simp
  | cons a t ih =>
      have ha := h a (List.mem_cons_self a t)
      have ht := ih (fun x hx => h x (List.mem_cons_of_mem a hx))
      simp [ha, ht]
      ring

/-- The TWAP loop's trace extension against any environment: exactly one
order POST per slice, each requesting the slice quantity. -/
theorem twapLoop_shape (bot : BasicBot) (env : Env) (now : Int) (symbol side : String)
    (sq : ℚ) (hd : bot.dry_run = false)
    (hs : pyUpper side = "BUY" ∨ pyUpper side = "SELL") :
    ∀ (n : Nat) (tr : List NetCall),
      ∃ ext : List NetCall,
        (twapLoop bot env now symbol side sq n tr).2 = tr ++ ext ∧
        (ext.filter (isOrderPost bot.base_url)).length = n ∧
        (∀ c ∈ ext.filter (isOrderPost bot.base_url), qtyParam c.params = sq) := by
  intro n
  induction n with
  | zero =>
      intro tr
      exact ⟨[], by simp [twapLoop], by simp, by simp⟩
  | succ m ih =>
      intro tr
      obtain ⟨e, ps, hstep, hq⟩ := place_market_order_shape bot env now symbol side sq tr hd hs
      obtain ⟨ext, htr2, hcnt, hqty⟩ :=
        ih (tr ++ [timeCall bot, ⟨"POST", bot.base_url ++ ORDER_PATH, ps⟩])
      refine ⟨[timeCall bot, ⟨"POST", bot.base_url ++ ORDER_PATH, ps⟩] ++ ext, ?_, ?_, ?_⟩
      · simp [twapLoop, hstep, htr2]
      · simp [List.filter_append, isOrderPost_timeCall, isOrderPost_orderCall, hcnt]
      · intro c hc
        rw [List.filter_append] at hc
        rcases List.mem_append.mp hc with hc | hc
        · have hceq : c = ⟨"POST", bot.base_url ++ ORDER_PATH, ps⟩ := by
            simpa [isOrderPost_timeCall, isOrderPost_orderCall] using hc
          rw [hceq]
          exact hq
        · exact hqty c hc

/-! ## Claim C7 — TWAP quantity conservation -/

/-- Claim C7: for `slices = N ≥ 1`, each of the N submissions requests
`quantity / N`, the sum of per-slice requested quantities equals the
original total exactly (rationals model the real-valued quantities), and
exactly N results come back in submission order. -/
theorem c7_twap_quantity_conservation (bot : BasicBot) (env : Env) (now : Int)
    (symbol side : String) (q : ℚ) (n : Nat) (d : Int)
    (hd : bot.dry_run = false)
    (hs : pyUpper side = "BUY" ∨ pyUpper side = "SELL")
    (hn : 1 ≤ n) (hdur : 0 ≤ d) :
    ∃ (rs : List TwapEntry) (tr' : List NetCall),
      bot.place_twap_order env now symbol side q (n : Int) d [] = (.ok rs, tr') ∧
      rs.length = n ∧
      (tr'.filter (isOrderPost bot.base_url)).length = n ∧
      (∀ c ∈ tr'.filter (isOrderPost bot.base_url), qtyParam c.params = q / (n : ℚ)) ∧
      ((tr'.filter (isOrderPost bot.base_url)).map (fun c => qtyParam c.params)).sum = q := by
  have h1 : ¬((n : Int) < 1) := by omega
  have h2 : ¬(d < 0) := not_lt.mpr hdur
  have h3 : ((n : Int)).toNat = n := by omega
  have hcast : (((n : Int) : ℚ)) = (n : ℚ) := by norm_cast
  obtain ⟨ext, htr, hcnt, hqty⟩ :=
    twapLoop_shape bot env now symbol side (q / ((n : Int) : ℚ)) hd hs n []
  refine ⟨(twapLoop bot env now symbol side (q / ((n : Int) : ℚ)) n []).1,
    (twapLoop bot env now symbol side (q / ((n : Int) : ℚ)) n []).2,
    by simp [BasicBot.place_twap_order, h1, h2, h3],
    twapLoop_length bot env now symbol side _ n [], ?_, ?_, ?_⟩
  · rw [htr]
    simpa using hcnt
  · intro c hc
    rw [htr] at hc
    simp only [List.nil_append] at hc
    rw [← hcast]
    exact hqty c hc
  · rw [htr]
    simp only [List.nil_append]
    have hall : ∀ c ∈ ext.filter (isOrderPost bot.base_url),
        qtyParam c.params = q / (n : ℚ) := by
      intro c hc
      rw [← hcast]
      exact hqty c hc
    rw [sum_map_const_rat _ _ _ hall, hcnt]
    have hne : (n : ℚ) ≠ 0 := Nat.cast_ne_zero.mpr (by omega)
    field_simp

/-- Witness for C7 at the spec's example scenario
`runTwap("ETHUSDT", "SELL", 0.5, slices = 5, duration = 60)`. -/
theorem c7_witness :
    botLive.dry_run = false ∧ (pyUpper "SELL" = "BUY" ∨ pyUpper "SELL" = "SELL") ∧
    1 ≤ 5 ∧ (0 : Int) ≤ 60 ∧
    ∃ (rs : List TwapEntry) (tr' : List NetCall),
      botLive.place_twap_order envTime 0 "ETHUSDT" "SELL" (mkRat 1 2) ((5 : Nat) : Int) 60 [] =
        (.ok rs, tr') ∧
      rs.length = 5 ∧
      (tr'.filter (isOrderPost botLive.base_url)).length = 5 ∧
      (∀ c ∈ tr'.filter (isOrderPost botLive.base_url),
        qtyParam c.params = mkRat 1 2 / ((5 : Nat) : ℚ)) ∧
      ((tr'.filter (isOrderPost botLive.base_url)).map (fun c => qtyParam c.params)).sum =
        mkRat 1 2 :=
  ⟨rfl, Or.inr (by decide), by omega, by decide,
   c7_twap_quantity_conservation botLive envTime 0 "ETHUSDT" "SELL" (mkRat 1 2) 5 60 rfl
     (Or.inr (by decide)) (by omega) (by decide)⟩

/-! ## Claim C3 — TWAP per-slice failure isolation -/

/-- One slice under the fault-injecting environment: the submission is the
usual two-call block, and it fails at the network layer exactly when it is
the `k`-th order POST of the run. -/
theorem slice_envFailAt (bot : BasicBot) (now : Int) (symbol side : String)
    (sq : ℚ) (k : Nat) (hd : bot.dry_run = false)
    (hs : pyUpper side = "BUY" ∨ pyUpper side = "SELL") (tr : List NetCall) :
    ∃ ps : Params,
      bot.place_market_order (envFailAt bot.base_url k) now symbol side sq false none tr =
        ((if postCount bot.base_url tr + 1 = k then .error (.netError failMsg)
          else .ok (.payload okOrderBody)),
         tr ++ [timeCall bot, ⟨"POST", bot.base_url ++ ORDER_PATH, ps⟩]) := by
  obtain ⟨ts, e1⟩ := market_envelope bot (envFailAt bot.base_url k) now symbol side sq tr
  rw [place_market_order_eq bot (envFailAt bot.base_url k) now symbol side sq tr hs]
  have hPOST : pyUpper "POST" = "POST" := by decide
  have hmAll : methodAllowed "POST" = true := by decide
  have hpc : postCount bot.base_url (tr ++ [timeCall bot]) = postCount bot.base_url tr := by
    simp [postCount, List.filter_append, isOrderPost_timeCall]
  have henv : ∀ ps : Params, envFailAt bot.base_url k (tr ++ [timeCall bot])
      ⟨"POST", bot.base_url ++ ORDER_PATH, ps⟩ =
      (if postCount bot.base_url tr + 1 = k then .netErr failMsg
       else .resp ⟨200, "ok", okOrderBody⟩) := by
    intro ps
    simp [envFailAt, isOrderPost_orderCall, postCount, List.filter_append, isOrderPost_timeCall]
  refine ⟨marketParams symbol side sq ++
    [("timestamp", PVal.pint ts), ("recvWindow", PVal.pint RECV_WINDOW),
     ("signature", PVal.pstr (bot._sign (marketParams symbol side sq ++
       [("timestamp", PVal.pint ts), ("recvWindow", PVal.pint RECV_WINDOW)])))], ?_⟩
  by_cases hc : postCount bot.base_url tr + 1 = k
  · simp [BasicBot.request, e1, hd, hmAll, doCall, hPOST, henv, hc]
  · have hcl : classify ⟨200, "ok", okOrderBody⟩ = .ok (.payload okOrderBody) := by decide
    simp [BasicBot.request, e1, hd, hmAll, doCall, hPOST, henv, hc, hcl]

/-- The entry the fault-injecting run produces for the slice at offset `i`
from a trace already holding `postCount tr` order POSTs. -/
def expectedEntry (base : String) (tr : List NetCall) (k i : Nat) : TwapEntry :=
  if postCount base tr + i + 1 = k then .errEntry failMsg
  else .success (.payload okOrderBody)

/-- Shifting the expected entry across one completed slice. -/
theorem expectedEntry_shift (base : String) (tr tr2 : List NetCall) (k i : Nat)
    (hpc : postCount base tr2 = postCount base tr + 1) :
    expectedEntry base tr2 k i = expectedEntry base tr k (i + 1) := by
  unfold expectedEntry
  rw [hpc]
  exact if_congr (by omega) rfl rfl

/-- The TWAP loop under the fault-injecting environment: the result list
is exactly the expected per-slice entries, and every slice's order POST
is attempted (the submission count grows by the slice count). -/
theorem twapLoop_envFailAt (bot : BasicBot) (now : Int) (symbol side : String)
    (sq : ℚ) (k : Nat) (hd : bot.dry_run = false)
    (hs : pyUpper side = "BUY" ∨ pyUpper side = "SELL") :
    ∀ (n : Nat) (tr : List NetCall),
      (twapLoop bot (envFailAt bot.base_url k) now symbol side sq n tr).1 =
        (List.range n).map (expectedEntry bot.base_url tr k) ∧
      postCount bot.base_url
          (twapLoop bot (envFailAt bot.base_url k) now symbol side sq n tr).2 =
        postCount bot.base_url tr + n := by
  intro n
  induction n with
  | zero => intro tr; simp [twapLoop]
  | succ m ih =>
      intro tr
      obtain ⟨ps, hstep⟩ := slice_envFailAt bot now symbol side sq k hd hs tr
      obtain ⟨ih1, ih2⟩ := ih (tr ++ [timeCall bot, ⟨"POST", bot.base_url ++ ORDER_PATH, ps⟩])
      have hpc := postCount_append_block bot ps tr
      constructor
      · rw [List.range_succ_eq_map, List.map_cons, List.map_map]
        simp only [twapLoop, hstep]
        rw [ih1]
        congr 1
        · by_cases hc : postCount bot.base_url tr + 1 = k <;>
            simp [expectedEntry, hc, errStr]
        · apply List.map_congr_left
          intro i hi
          simp only [Function.comp]
          exact expectedEntry_shift bot.base_url tr _ k i hpc
      · simp only [twapLoop, hstep]
        rw [ih2, hpc]
        omega

/-- Element lookup in a mapped range. -/
theorem getD_map_range {α : Type} (f : Nat → α) (n i : Nat) (d : α) (h : i < n) :
    ((List.range n).map f).getD i d = f i := by
  simp [List.getD_eq_getElem?_getD, List.getElem?_map, List.getElem?_range, h]

/-- Unfolding `place_twap_order` on valid inputs, keeping the cast shapes
fixed. -/
theorem place_twap_unfold (bot : BasicBot) (env : Env) (now : Int) (symbol side : String)
    (q : ℚ) (n : Nat) (d : Int) (tr : List NetCall) (hn : 1 ≤ n) (hdur : 0 ≤ d) :
    bot.place_twap_order env now symbol side q (n : Int) d tr =
      (.ok (twapLoop bot env now symbol side (q / ((n : Int) : ℚ)) n tr).1,
       (twapLoop bot env now symbol side (q / ((n : Int) : ℚ)) n tr).2) := by
  have h1 : ¬((n : Int) < 1) := by omega
  have h2 : ¬(d < 0) := not_lt.mpr hdur
  have h3 : ((n : Int)).toNat = n := by omega
  unfold BasicBot.place_twap_order
  rw [if_neg h1, if_neg h2, h3]

/-- Claim C3: for every TWAP run of N slices the returned sequence has
length exactly N in submission order against any environment (every
failure is caught and recorded in place); and when the `k`-th submission
(1 ≤ k ≤ N) is made to fail at the transport layer, the error entry sits
exactly at position k, every other slice's entry is its success result,
and all N order POSTs are still attempted. -/
theorem c3_twap_failure_isolation (bot : BasicBot) (now : Int) (symbol side : String)
    (q : ℚ) (n k : Nat) (d : Int)
    (hd : bot.dry_run = false)
    (hs : pyUpper side = "BUY" ∨ pyUpper side = "SELL")
    (hk1 : 1 ≤ k) (hkn : k ≤ n) (hdur : 0 ≤ d) :
    (∀ (env : Env) (tr : List NetCall), ∃ rs tr',
        bot.place_twap_order env now symbol side q (n : Int) d tr = (.ok rs, tr') ∧
        rs.length = n) ∧
    (∃ rs tr',
        bot.place_twap_order (envFailAt bot.base_url k) now symbol side q (n : Int) d [] =
          (.ok rs, tr') ∧
        rs.length = n ∧
        rs.getD (k - 1) (.errEntry "") = .errEntry failMsg ∧
        (∀ i : Nat, i < n → i ≠ k - 1 →
          rs.getD i (.errEntry "") = .success (.payload okOrderBody)) ∧
        postCount bot.base_url tr' = n) := by
  have h1 : ¬((n : Int) < 1) := by omega
  have h2 : ¬(d < 0) := not_lt.mpr hdur
  have h3 : ((n : Int)).toNat = n := by omega
  constructor
  · intro env tr
    exact ⟨(twapLoop bot env now symbol side (q / ((n : Int) : ℚ)) n tr).1,
      (twapLoop bot env now symbol side (q / ((n : Int) : ℚ)) n tr).2,
      place_twap_unfold bot env now symbol side q n d tr (by omega) hdur,
      twapLoop_length bot env now symbol side _ n tr⟩
  · obtain ⟨hloop1, hloop2⟩ :=
      twapLoop_envFailAt bot now symbol side (q / ((n : Int) : ℚ)) k hd hs n []
    refine ⟨_, _,
      place_twap_unfold bot (envFailAt bot.base_url k) now symbol side q n d [] (by omega) hdur,
      ?_, ?_, ?_, ?_⟩
    · rw [hloop1]
      simp
    · have hcond : postCount bot.base_url ([] : List NetCall) + (k - 1) + 1 = k := by
        simp [postCount]
        omega
      rw [hloop1, getD_map_range _ n (k - 1) _ (by omega)]
      unfold expectedEntry
      rw [if_pos hcond]
    · intro i hi hne
      have hcond : ¬(postCount bot.base_url ([] : List NetCall) + i + 1 = k) := by
        simp [postCount]
        omega
      rw [hloop1, getD_map_range _ n i _ hi]
      unfold expectedEntry
      rw [if_neg hcond]
    · simpa [postCount] using hloop2

/-- Witness for C3: a three-slice run whose second order POST is forced to
fail at the transport layer. -/
theorem c3_witness :
    botLive.dry_run = false ∧ (pyUpper "buy" = "BUY" ∨ pyUpper "buy" = "SELL") ∧
    1 ≤ 2 ∧ 2 ≤ 3 ∧ (0 : Int) ≤ 60 ∧
    ((∀ (env : Env) (tr : List NetCall), ∃ rs tr',
        botLive.place_twap_order env 0 "BTCUSDT" "buy" 1 ((3 : Nat) : Int) 60 tr =
          (.ok rs, tr') ∧
        rs.length = 3) ∧
     (∃ rs tr',
        botLive.place_twap_order (envFailAt botLive.base_url 2) 0 "BTCUSDT" "buy" 1
            ((3 : Nat) : Int) 60 [] =
          (.ok rs, tr') ∧
        rs.length = 3 ∧
        rs.getD (2 - 1) (.errEntry "") = .errEntry failMsg ∧
        (∀ i : Nat, i < 3 → i ≠ 2 - 1 →
          rs.getD i (.errEntry "") = .success (.payload okOrderBody)) ∧
        postCount botLive.base_url tr' = 3)) :=
  ⟨rfl, Or.inl (by decide), by omega, by omega, by decide,
   c3_twap_failure_isolation botLive 0 "BTCUSDT" "buy" 1 3 2 60 rfl (Or.inl (by decide))
     (by omega) (by omega) (by decide)⟩

end Binance
